import Mathlib

/-
Shallow embedding of the donation-microsite fulfillment core.

Sources embedded:
  * src/server.js        (namespace Server)   — the webhook handler
    app.post of /api/webhooks/paypal (lines 124-225) and the function
    generateThankYouMessage (lines 33-64).
  * src/unnamed/part_000 (namespace Part000)  — the same two pieces of code
    as they appear in the second copy of the file (lines 29-59 and 108-195).

External collaborators are modelled by their observable outcomes:
  * the generative-text service (fetch of the Gemini endpoint) is a function
    from the request prompt to a GeminiResponse value enumerating every
    observable outcome of the awaited fetch and response decoding;
  * the mail transport (nodemailer transporter.sendMail) is a function from
    the outbound message to a MailOutcome (resolved or rejected promise);
  * JSON.parse of the custom_id blob is modelled by its outcome CustomId:
    either a throw (parseFail, covering invalid JSON and the parsed-null
    case, both of which raise inside the same try block before any side
    effect) or an extracted DonorIntent whose fields are each possibly
    undefined (Option);
  * a possibly-undefined JS value interpolated into a template literal
    renders as the string "undefined": function jsString;
  * the JS String.prototype.trim builtin is modelled by jsTrim, which drops
    leading and trailing whitespace from the character list.

The handler records its observable effects in a HandlerTrace: every status
passed to res.sendStatus in order, every message passed to
transporter.sendMail in order, and the request body of every call made to
the external generative-text service.
-/

/-- Outcome of the awaited fetch to the generative-text service, as observed
by generateThankYouMessage: the promise rejects (or response.json throws);
the response arrives with apiResponse.ok false; the decoded body has no
candidates array or an empty one; the body has a candidate but the access
path content.parts[0].text throws; or a candidate text string is present. -/
inductive GeminiResponse where
  | fault
  | notOk (status : Nat)
  | okNoCandidates
  | okBadShape
  | okText (text : String)
deriving DecidableEq

/-- Outcome of one transporter.sendMail call: the returned promise resolves
or rejects. -/
inductive MailOutcome where
  | sent
  | rejected
deriving DecidableEq

/-- The values interpolated into the fixed HTML email template of the
webhook handler (src/server.js lines 153-212). The template is a constant
string interpolating exactly these five values; we record the values. -/
structure EmailHtml where
  donorName : String
  amount : String
  cause : String
  transactionId : String
  acknowledgement : String
deriving DecidableEq

/-- The argument object passed to transporter.sendMail (src/server.js
lines 149-213). -/
structure MailMessage where
  from_ : String
  to_ : String
  subject : String
  html : EmailHtml
deriving DecidableEq

/-- The donor metadata destructured from the parsed custom_id blob:
const (name, email, message) = donorInfo. Each field is undefined when the
blob lacks it. -/
structure DonorIntent where
  name : Option String
  email : Option String
  message : Option String
deriving DecidableEq

/-- Result of JSON.parse(purchase_unit.custom_id) followed by the
destructuring of name, email and message: parseFail when that step throws
(custom_id is not valid JSON, or parses to null so that destructuring
throws), parsed otherwise, with each destructured field possibly
undefined. -/
inductive CustomId where
  | parseFail
  | parsed (d : DonorIntent)
deriving DecidableEq

/-- One entry of resource.purchase_units, keeping the only field the
handler reads. -/
structure PurchaseUnit where
  custom_id : CustomId
deriving DecidableEq

/-- The event.resource object: id (possibly undefined, only interpolated),
amount.value (none when the amount object is absent, so that the access
.value throws), and the purchase_units array (the absent-array case and the
empty-array case both make purchase_units[0].custom_id throw and are both
represented by the empty list). -/
structure Resource where
  id : Option String
  amount : Option String
  purchase_units : List PurchaseUnit
deriving DecidableEq

/-- The inbound webhook body req.body: the event_type tag and the resource
object (none when absent, so that capture.amount throws). -/
structure WebhookEvent where
  event_type : String
  resource : Option Resource
deriving DecidableEq

/-- Observable effects of one run of the webhook POST handler: statuses
passed to res.sendStatus in order, messages passed to transporter.sendMail
in order, and the prompt bodies of the requests issued to the external
generative-text service. -/
structure HandlerTrace where
  responses : List Nat
  mails : List MailMessage
  genCalls : List String
deriving DecidableEq

/-- Result of the try/catch block inside the recognized-event branch:
completed means control falls through to the trailing res.sendStatus(200);
errorReturn means the catch branch ran res.sendStatus(500) and returned
early. Both carry the effects performed inside the block. -/
inductive TryBlockResult where
  | completed (mails : List MailMessage) (genCalls : List String)
  | errorReturn (mails : List MailMessage) (genCalls : List String)
deriving DecidableEq

/-- Interpolation of a possibly-undefined JS string value into a template
literal: undefined renders as the string "undefined". -/
def jsString : Option String → String
  | some s => s
  | none => "undefined"

/-- Model of the JS String.prototype.trim builtin on the character list:
drop leading whitespace, then drop trailing whitespace. -/
def trimChars (l : List Char) : List Char :=
  ((l.dropWhile Char.isWhitespace).reverse.dropWhile Char.isWhitespace).reverse

/-- Model of the JS String.prototype.trim builtin. -/
def jsTrim (s : String) : String := ⟨trimChars s.data⟩

namespace Server

/-- The Gemini endpoint URL built in generateThankYouMessage
(src/server.js line 41), as a function of the GEMINI_API_KEY value. -/
def geminiApiUrl (key : String) : String :=
  "https://generativelanguage.googleapis.com/v1beta/models/gemini-1.5-flash-latest:generateContent?key="
    ++ key

/-- The prompt assembled by generateThankYouMessage (src/server.js
lines 35-39): the base instruction, then — only when message is truthy,
that is present and not the empty string — the extra instruction quoting
the donor message, then the closing instruction. -/
def buildPrompt (name amount : String) (message : Option String) : String :=
  (match message with
    | some m =>
      if m = "" then
        "Write a short, warm, and personal thank you message for a person named "
          ++ name ++ " who just donated $" ++ amount
          ++ ". This donation is for our \"HopeSpring Foundation\" fundraiser, which provides school supplies for underprivileged children. Mention the impact on the children."
      else
        "Write a short, warm, and personal thank you message for a person named "
          ++ name ++ " who just donated $" ++ amount
          ++ ". This donation is for our \"HopeSpring Foundation\" fundraiser, which provides school supplies for underprivileged children. Mention the impact on the children."
          ++ " The donor also left this kind message: \"" ++ m
          ++ "\". Please subtly weave a reference to their message into your thank you."
    | none =>
      "Write a short, warm, and personal thank you message for a person named "
        ++ name ++ " who just donated $" ++ amount
        ++ ". This donation is for our \"HopeSpring Foundation\" fundraiser, which provides school supplies for underprivileged children. Mention the impact on the children.")
    ++ " Keep the tone grateful and heartfelt. Two sentences maximum."

/-- The fallback message returned by the catch branch of
generateThankYouMessage (src/server.js line 62). -/
def fallbackMessage (name amount : String) : String :=
  "Thank you so much for your generous donation of $" ++ amount ++ ", " ++ name
    ++ "! Your support means the world to us and will make a real difference."

/-- generateThankYouMessage (src/server.js lines 33-64). The whole body
runs inside try/catch, so the function is total: it issues exactly one
request to the external service, carrying the built prompt; when the
response is ok and has a candidate text it returns that text trimmed;
every other outcome — rejected fetch, non-ok status, missing or empty
candidates, broken candidate shape — raises inside the try and the catch
returns the fallback message. The external behaviour is the function
gemini from the request prompt to the observed outcome. -/
def generateThankYouMessage (gemini : String → GeminiResponse)
    (name amount : String) (message : Option String) : String :=
  match gemini (buildPrompt name amount message) with
  | .okText t => jsTrim t
  | _ => fallbackMessage name amount

/-- The constant cause string of the webhook handler (src/server.js
line 140). -/
def cause : String := "HopeSpring Foundation\x27s Children\x27s Fund"

/-- The message object passed to transporter.sendMail (src/server.js
lines 149-213), as assembled in the recognized-event branch for a parsed
DonorIntent d, amount value a, capture id, and EMAIL_FROM value. The HTML
body is the fixed template; we record its five interpolated values. -/
def builtMail (gemini : String → GeminiResponse) (emailFrom : String)
    (captureId : Option String) (a : String) (d : DonorIntent) : MailMessage :=
  { from_ := "\"HopeSpring Foundation\" <" ++ emailFrom ++ ">"
    to_ := jsString d.email
    subject := "Your incredible support for the HopeSpring Foundation!"
    html :=
      { donorName := jsString d.name
        amount := a
        cause := cause
        transactionId := jsString captureId
        acknowledgement := generateThankYouMessage gemini (jsString d.name) a d.message } }

/-- The try/catch block of the recognized-event branch (src/server.js
lines 131-220): read capture = event.resource, amount =
capture.amount.value, purchase_unit = capture.purchase_units[0], parse
custom_id, destructure the donor info, generate the acknowledgement, and
await transporter.sendMail. A throw at any step reaches the catch branch,
which responds 500 and returns early (errorReturn); a resolved sendMail
falls through (completed). -/
def webhookTryBlock (gemini : String → GeminiResponse)
    (mail : MailMessage → MailOutcome) (emailFrom : String)
    (event : WebhookEvent) : TryBlockResult :=
  match event.resource with
  | none => .errorReturn [] []
  | some capture =>
    match capture.amount with
    | none => .errorReturn [] []
    | some amount =>
      match capture.purchase_units with
      | [] => .errorReturn [] []
      | purchase_unit :: _ =>
        match purchase_unit.custom_id with
        | .parseFail => .errorReturn [] []
        | .parsed donorInfo =>
          match mail (builtMail gemini emailFrom capture.id amount donorInfo) with
          | .sent =>
            .completed [builtMail gemini emailFrom capture.id amount donorInfo]
              [buildPrompt (jsString donorInfo.name) amount donorInfo.message]
          | .rejected =>
            .errorReturn [builtMail gemini emailFrom capture.id amount donorInfo]
              [buildPrompt (jsString donorInfo.name) amount donorInfo.message]

/-- The webhook POST handler (src/server.js lines 124-225). When the
event_type is the recognized tag it runs the try/catch block: on
errorReturn the only response is the 500 sent by the catch branch (the
early return skips the trailing acknowledgement); on completed the only
response is the trailing res.sendStatus(200). Every unrecognized event
skips the branch and gets the trailing 200 with no effects. -/
def handleWebhook (gemini : String → GeminiResponse)
    (mail : MailMessage → MailOutcome) (emailFrom : String)
    (event : WebhookEvent) : HandlerTrace :=
  if event.event_type = "PAYMENT.CAPTURE.COMPLETED" then
    match webhookTryBlock gemini mail emailFrom event with
    | .completed ms gs => { responses := [200], mails := ms, genCalls := gs }
    | .errorReturn ms gs => { responses := [500], mails := ms, genCalls := gs }
  else
    { responses := [200], mails := [], genCalls := [] }

end Server

namespace Part000

/-- The Gemini endpoint URL built in generateThankYouMessage
(src/unnamed/part_000 line 37), as a function of the GEMINI_API_KEY
value. -/
def geminiApiUrl (key : String) : String :=
  "https://generativelanguage.googleapis.com/v1beta/models/gemini-1.5-flash-latest:generateContent?key="
    ++ key

/-- The prompt assembled by generateThankYouMessage (src/unnamed/part_000
lines 31-35). -/
def buildPrompt (name amount : String) (message : Option String) : String :=
  (match message with
    | some m =>
      if m = "" then
        "Write a short, warm, and personal thank you message for a person named "
          ++ name ++ " who just donated $" ++ amount
          ++ ". This donation is for our \"HopeSpring Foundation\" fundraiser, which provides school supplies for underprivileged children. Mention the impact on the children."
      else
        "Write a short, warm, and personal thank you message for a person named "
          ++ name ++ " who just donated $" ++ amount
          ++ ". This donation is for our \"HopeSpring Foundation\" fundraiser, which provides school supplies for underprivileged children. Mention the impact on the children."
          ++ " The donor also left this kind message: \"" ++ m
          ++ "\". Please subtly weave a reference to their message into your thank you."
    | none =>
      "Write a short, warm, and personal thank you message for a person named "
        ++ name ++ " who just donated $" ++ amount
        ++ ". This donation is for our \"HopeSpring Foundation\" fundraiser, which provides school supplies for underprivileged children. Mention the impact on the children.")
    ++ " Keep the tone grateful and heartfelt. Two sentences maximum."

/-- The fallback message returned by the catch branch of
generateThankYouMessage (src/unnamed/part_000 line 57). -/
def fallbackMessage (name amount : String) : String :=
  "Thank you so much for your generous donation of $" ++ amount ++ ", " ++ name
    ++ "! Your support means the world to us and will make a real difference."

/-- generateThankYouMessage as it appears in src/unnamed/part_000
(lines 29-59), embedded the same way as the src/server.js copy. -/
def generateThankYouMessage (gemini : String → GeminiResponse)
    (name amount : String) (message : Option String) : String :=
  match gemini (buildPrompt name amount message) with
  | .okText t => jsTrim t
  | _ => fallbackMessage name amount

/-- The constant cause string of the webhook handler (src/unnamed/part_000
line 119). -/
def cause : String := "HopeSpring Foundation\x27s Children\x27s Fund"

/-- The message object passed to transporter.sendMail
(src/unnamed/part_000 lines 123-187). -/
def builtMail (gemini : String → GeminiResponse) (emailFrom : String)
    (captureId : Option String) (a : String) (d : DonorIntent) : MailMessage :=
  { from_ := "\"HopeSpring Foundation\" <" ++ emailFrom ++ ">"
    to_ := jsString d.email
    subject := "Your incredible support for the HopeSpring Foundation!"
    html :=
      { donorName := jsString d.name
        amount := a
        cause := cause
        transactionId := jsString captureId
        acknowledgement := generateThankYouMessage gemini (jsString d.name) a d.message } }

/-- The try/catch block of the recognized-event branch
(src/unnamed/part_000 lines 113-192). -/
def webhookTryBlock (gemini : String → GeminiResponse)
    (mail : MailMessage → MailOutcome) (emailFrom : String)
    (event : WebhookEvent) : TryBlockResult :=
  match event.resource with
  | none => .errorReturn [] []
  | some capture =>
    match capture.amount with
    | none => .errorReturn [] []
    | some amount =>
      match capture.purchase_units with
      | [] => .errorReturn [] []
      | purchase_unit :: _ =>
        match purchase_unit.custom_id with
        | .parseFail => .errorReturn [] []
        | .parsed donorInfo =>
          match mail (builtMail gemini emailFrom capture.id amount donorInfo) with
          | .sent =>
            .completed [builtMail gemini emailFrom capture.id amount donorInfo]
              [buildPrompt (jsString donorInfo.name) amount donorInfo.message]
          | .rejected =>
            .errorReturn [builtMail gemini emailFrom capture.id amount donorInfo]
              [buildPrompt (jsString donorInfo.name) amount donorInfo.message]

/-- The webhook POST handler of src/unnamed/part_000 (lines 108-195),
structured exactly as the src/server.js copy: the catch branch responds
500 and returns early, every other path ends at the trailing
res.sendStatus(200). -/
def handleWebhook (gemini : String → GeminiResponse)
    (mail : MailMessage → MailOutcome) (emailFrom : String)
    (event : WebhookEvent) : HandlerTrace :=
  if event.event_type = "PAYMENT.CAPTURE.COMPLETED" then
    match webhookTryBlock gemini mail emailFrom event with
    | .completed ms gs => { responses := [200], mails := ms, genCalls := gs }
    | .errorReturn ms gs => { responses := [500], mails := ms, genCalls := gs }
  else
    { responses := [200], mails := [], genCalls := [] }

end Part000

/-- Property of an external outcome under which the acknowledgement built
from it is non-empty: every outcome except a candidate text that trims to
the empty string. -/
def TrimmedNonempty : GeminiResponse → Prop
  | .okText t => jsTrim t ≠ ""
  | _ => True

/- Concrete instantiations of the external behaviours and inputs, used by
the witness and counterexample theorems. -/

/-- External generative-text service whose fetch always rejects. -/
def gFault : String → GeminiResponse := fun _ => .fault

/-- External generative-text service that always answers ok with the given
candidate text. -/
def gText (t : String) : String → GeminiResponse := fun _ => .okText t

/-- Mail transport that resolves every send. -/
def mailAccept : MailMessage → MailOutcome := fun _ => .sent

/-- Mail transport that rejects every send. -/
def mailReject : MailMessage → MailOutcome := fun _ => .rejected

/-- A sender address value for EMAIL_FROM. -/
def exFrom : String := "donations@hopespring.example"

/-- A well-formed donor metadata blob. -/
def adaIntent : DonorIntent :=
  { name := some "Ada", email := some "ada@x.com", message := none }

/-- A purchase unit whose custom_id parses to adaIntent. -/
def exPU : PurchaseUnit := { custom_id := .parsed adaIntent }

/-- A resource carrying an amount and the purchase unit exPU. -/
def exResource : Resource :=
  { id := some "TX1", amount := some "25.00", purchase_units := [exPU] }

/-- A recognized capture-completed event with well-formed metadata. -/
def evGood : WebhookEvent :=
  { event_type := "PAYMENT.CAPTURE.COMPLETED", resource := some exResource }

/-- An event with an unrecognized type. -/
def evOther : WebhookEvent :=
  { event_type := "CHECKOUT.ORDER.APPROVED", resource := none }

/-- A purchase unit whose custom_id does not parse as JSON. -/
def exPUBad : PurchaseUnit := { custom_id := .parseFail }

/-- A resource whose purchase unit carries the unparseable custom_id. -/
def exResourceBad : Resource :=
  { id := some "TX2", amount := some "10.00", purchase_units := [exPUBad] }

/-- A recognized event whose custom_id is not parseable. -/
def evBadJson : WebhookEvent :=
  { event_type := "PAYMENT.CAPTURE.COMPLETED", resource := some exResourceBad }

/-- A donor metadata blob that parses but carries no fields at all. -/
def emptyIntent : DonorIntent := { name := none, email := none, message := none }

/-- A purchase unit whose custom_id parses to the field-less blob. -/
def exPUEmpty : PurchaseUnit := { custom_id := .parsed emptyIntent }

/-- A resource carrying an amount and the field-less purchase unit. -/
def exResourceEmpty : Resource :=
  { id := some "TX3", amount := some "5.00", purchase_units := [exPUEmpty] }

/-- A recognized event whose parsed metadata is missing name and email. -/
def evNoFields : WebhookEvent :=
  { event_type := "PAYMENT.CAPTURE.COMPLETED", resource := some exResourceEmpty }

/- Helper lemmas shared by the claim theorems below. -/

/-- The fallback template is a non-empty string for every name and
amount. -/
theorem fallbackMessage_ne_empty (name amount : String) :
    Server.fallbackMessage name amount ≠ "" := by
  simp [Server.fallbackMessage, String.ext_iff]

/-- The generated acknowledgement is non-empty for every external outcome
except a candidate text trimming to the empty string. -/
theorem generate_ne_empty (gemini : String → GeminiResponse) (name amount : String)
    (message : Option String)
    (h : TrimmedNonempty (gemini (Server.buildPrompt name amount message))) :
    Server.generateThankYouMessage gemini name amount message ≠ "" := by
  unfold Server.generateThankYouMessage
  cases hg : gemini (Server.buildPrompt name amount message)
  case okText t =>
    rw [hg] at h
    exact h
  all_goals exact fallbackMessage_ne_empty name amount

/-- Reduction of the handler on a recognized event whose resource, amount,
first purchase unit and parsed custom_id are given: the generator is
invoked once with the built prompt, the built mail is passed to the
transport once, and the single response is 200 on a resolved send and 500
on a rejected one. -/
theorem handle_parsed (gemini : String → GeminiResponse) (mail : MailMessage → MailOutcome)
    (emailFrom : String) (event : WebhookEvent) (r : Resource) (pu : PurchaseUnit)
    (rest : List PurchaseUnit) (d : DonorIntent) (a : String)
    (ht : event.event_type = "PAYMENT.CAPTURE.COMPLETED")
    (hr : event.resource = some r) (ha : r.amount = some a)
    (hp : r.purchase_units = pu :: rest) (hc : pu.custom_id = CustomId.parsed d) :
    Server.handleWebhook gemini mail emailFrom event =
      { responses := [match mail (Server.builtMail gemini emailFrom r.id a d) with
                      | .sent => 200
                      | .rejected => 500],
        mails := [Server.builtMail gemini emailFrom r.id a d],
        genCalls := [Server.buildPrompt (jsString d.name) a d.message] } := by
  unfold Server.handleWebhook Server.webhookTryBlock
  rw [if_pos ht]
  simp only [hr, ha, hp, hc]
  cases mail (Server.builtMail gemini emailFrom r.id a d) <;> rfl

/-- C1 (amended): for every webhook event whose event_type is the
recognized capture-completed tag and whose resource carries an amount and
a first purchase unit whose custom_id parses to a DonorIntent, the handler
passes exactly one message to transporter.sendMail — the built mail,
whatever the transport then does — and the acknowledgement string
interpolated into the rendered message is non-empty unless the external
service returned a candidate whose text trims to the empty string (in
particular it is non-empty on every fallback path). -/
theorem webhook_sends_exactly_one_mail (gemini : String → GeminiResponse)
    (mail : MailMessage → MailOutcome) (emailFrom : String) (event : WebhookEvent)
    (r : Resource) (pu : PurchaseUnit) (rest : List PurchaseUnit) (d : DonorIntent)
    (a : String)
    (ht : event.event_type = "PAYMENT.CAPTURE.COMPLETED")
    (hr : event.resource = some r) (ha : r.amount = some a)
    (hp : r.purchase_units = pu :: rest) (hc : pu.custom_id = CustomId.parsed d) :
    (Server.handleWebhook gemini mail emailFrom event).mails =
      [Server.builtMail gemini emailFrom r.id a d] ∧
    (TrimmedNonempty (gemini (Server.buildPrompt (jsString d.name) a d.message)) →
      (Server.builtMail gemini emailFrom r.id a d).html.acknowledgement ≠ "") := by
  refine ⟨?_, ?_⟩
  · rw [handle_parsed gemini mail emailFrom event r pu rest d a ht hr ha hp hc]
  · intro h
    exact generate_ne_empty gemini (jsString d.name) a d.message h

/-- Witness for C1 (amended) at the concrete event evGood with a faulting
external service and an accepting transport. -/
theorem webhook_sends_exactly_one_mail_case :
    evGood.event_type = "PAYMENT.CAPTURE.COMPLETED" ∧
    (Server.handleWebhook gFault mailAccept exFrom evGood).mails =
      [Server.builtMail gFault exFrom exResource.id "25.00" adaIntent] ∧
    (Server.builtMail gFault exFrom exResource.id "25.00" adaIntent).html.acknowledgement
      ≠ "" := by
  have h := webhook_sends_exactly_one_mail gFault mailAccept exFrom evGood exResource exPU []
    adaIntent "25.00" rfl rfl rfl rfl rfl
  exact ⟨rfl, h.1, h.2 (by exact True.intro)⟩

/-- C1 counterexample: at the recognized well-formed event evGood, when the
external service answers ok with a whitespace-only candidate text, the
handler still sends exactly one mail but the acknowledgement interpolated
into the rendered message is the empty string, refuting the non-emptiness
conjunct of the claim as stated. -/
theorem webhook_empty_acknowledgement_case :
    ((Server.handleWebhook (gText "   ") mailAccept exFrom evGood).mails.map
      fun m => m.html.acknowledgement) = [""] ∧
    (Server.handleWebhook (gText "   ") mailAccept exFrom evGood).mails.length = 1 := by
  decide

/-- C2: generateThankYouMessage never fails outward — its body is embedded
as a total function because the try/catch absorbs every fault — and on
every behaviour of the external call other than an ok response carrying a
candidate text (rejected fetch, non-ok status, missing or empty or broken
candidates) it returns the fixed fallback template interpolating exactly
the given name and amount, hence a result deterministic in name and
amount. -/
theorem generate_falls_back_on_fault (gemini : String → GeminiResponse)
    (name amount : String) (message : Option String)
    (h : ∀ t, gemini (Server.buildPrompt name amount message) ≠ GeminiResponse.okText t) :
    Server.generateThankYouMessage gemini name amount message =
      Server.fallbackMessage name amount := by
  unfold Server.generateThankYouMessage
  cases hg : gemini (Server.buildPrompt name amount message)
  case okText t => exact absurd hg (h t)
  all_goals rfl

/-- Witness for C2 with an always-faulting external service. -/
theorem generate_falls_back_on_fault_case :
    (∀ t, gFault (Server.buildPrompt "Ada" "25.00" none) ≠ GeminiResponse.okText t) ∧
    Server.generateThankYouMessage gFault "Ada" "25.00" none =
      Server.fallbackMessage "Ada" "25.00" :=
  ⟨fun _ h => GeminiResponse.noConfusion h,
   generate_falls_back_on_fault gFault "Ada" "25.00" none
     (fun _ h => GeminiResponse.noConfusion h)⟩

/-- C3 (amended): the handler performs no validation of the DonorIntent
fields. For every recognized capture-completed event whose custom_id
parses to a DonorIntent with name or email missing or empty, ingestion
does not fail: the generator is invoked once (missing fields rendered as
the string "undefined"), exactly one email send is attempted, and when the
transport accepts, the handler responds 200, not 500. -/
theorem webhook_skips_field_validation (gemini : String → GeminiResponse)
    (mail : MailMessage → MailOutcome) (emailFrom : String) (event : WebhookEvent)
    (r : Resource) (pu : PurchaseUnit) (rest : List PurchaseUnit) (d : DonorIntent)
    (a : String)
    (ht : event.event_type = "PAYMENT.CAPTURE.COMPLETED")
    (hr : event.resource = some r) (ha : r.amount = some a)
    (hp : r.purchase_units = pu :: rest) (hc : pu.custom_id = CustomId.parsed d)
    (_hmissing : d.name = none ∨ d.name = some "" ∨ d.email = none ∨ d.email = some "")
    (haccept : ∀ m, mail m = MailOutcome.sent) :
    (Server.handleWebhook gemini mail emailFrom event).responses = [200] ∧
    (Server.handleWebhook gemini mail emailFrom event).mails =
      [Server.builtMail gemini emailFrom r.id a d] ∧
    (Server.handleWebhook gemini mail emailFrom event).genCalls.length = 1 := by
  rw [handle_parsed gemini mail emailFrom event r pu rest d a ht hr ha hp hc,
    haccept (Server.builtMail gemini emailFrom r.id a d)]
  exact ⟨rfl, rfl, rfl⟩

/-- Witness for C3 (amended) at the concrete event evNoFields. -/
theorem webhook_skips_field_validation_case :
    emptyIntent.name = none ∧
    (Server.handleWebhook gFault mailAccept exFrom evNoFields).responses = [200] ∧
    (Server.handleWebhook gFault mailAccept exFrom evNoFields).mails =
      [Server.builtMail gFault exFrom exResourceEmpty.id "5.00" emptyIntent] ∧
    (Server.handleWebhook gFault mailAccept exFrom evNoFields).genCalls.length = 1 := by
  have h := webhook_skips_field_validation gFault mailAccept exFrom evNoFields
    exResourceEmpty exPUEmpty [] emptyIntent "5.00" rfl rfl rfl rfl rfl
    (Or.inl rfl) (fun _ => rfl)
  exact ⟨rfl, h.1, h.2.1, h.2.2⟩

/-- C3 counterexample: at the recognized event evNoFields, whose custom_id
parses to a blob with neither name nor email, the handler does not report
failure and does attempt a send: with an accepting transport it responds
200 and passes one message to the transport, where the claim requires a
500 and no send attempt. -/
theorem webhook_missing_fields_no_failure_case :
    (Server.handleWebhook gFault mailAccept exFrom evNoFields).responses = [200] ∧
    (Server.handleWebhook gFault mailAccept exFrom evNoFields).mails.length = 1 := by
  decide

/-- C4: every event whose event_type is not the recognized
capture-completed tag is filtered out — no generator call, no sendMail
call, and the single success response 200. -/
theorem webhook_ignores_unrecognized (gemini : String → GeminiResponse)
    (mail : MailMessage → MailOutcome) (emailFrom : String) (event : WebhookEvent)
    (ht : event.event_type ≠ "PAYMENT.CAPTURE.COMPLETED") :
    Server.handleWebhook gemini mail emailFrom event =
      { responses := [200], mails := [], genCalls := [] } := by
  unfold Server.handleWebhook
  rw [if_neg ht]

/-- Witness for C4 at the concrete event evOther. -/
theorem webhook_ignores_unrecognized_case :
    evOther.event_type ≠ "PAYMENT.CAPTURE.COMPLETED" ∧
    Server.handleWebhook gFault mailAccept exFrom evOther =
      { responses := [200], mails := [], genCalls := [] } :=
  ⟨by decide, webhook_ignores_unrecognized gFault mailAccept exFrom evOther (by decide)⟩

/-- C5: for every recognized capture-completed event whose resource or
amount or purchase-unit path is absent, or whose custom_id does not parse,
the handler responds with the single failure status 500 and neither the
generator nor the mail transport is ever invoked. -/
theorem webhook_fails_on_unparseable (gemini : String → GeminiResponse)
    (mail : MailMessage → MailOutcome) (emailFrom : String) (event : WebhookEvent)
    (ht : event.event_type = "PAYMENT.CAPTURE.COMPLETED")
    (hbad : event.resource = none ∨
      ∃ r, event.resource = some r ∧
        (r.amount = none ∨ r.purchase_units = [] ∨
          ∃ pu rest, r.purchase_units = pu :: rest ∧ pu.custom_id = CustomId.parseFail)) :
    Server.handleWebhook gemini mail emailFrom event =
      { responses := [500], mails := [], genCalls := [] } := by
  unfold Server.handleWebhook Server.webhookTryBlock
  rw [if_pos ht]
  rcases hbad with h | ⟨r, hr, h | h | ⟨pu, rest, hp, hc⟩⟩
  · simp only [h]
  · simp only [hr, h]
  · simp only [hr, h]
    cases r.amount <;> rfl
  · simp only [hr, hp, hc]
    cases r.amount <;> rfl

/-- Witness for C5 at the concrete event evBadJson. -/
theorem webhook_fails_on_unparseable_case :
    evBadJson.event_type = "PAYMENT.CAPTURE.COMPLETED" ∧
    Server.handleWebhook gFault mailAccept exFrom evBadJson =
      { responses := [500], mails := [], genCalls := [] } :=
  ⟨rfl, webhook_fails_on_unparseable gFault mailAccept exFrom evBadJson rfl
    (Or.inr ⟨exResourceBad, rfl, Or.inr (Or.inr ⟨exPUBad, [], rfl, rfl⟩)⟩)⟩

/-- C6: when the external call completes ok and carries a candidate with
extractable text, generateThankYouMessage returns exactly that candidate
text with surrounding whitespace trimmed — the candidate-text path, not
the fallback branch. -/
theorem generate_returns_trimmed_candidate (gemini : String → GeminiResponse)
    (name amount : String) (message : Option String) (t : String)
    (h : gemini (Server.buildPrompt name amount message) = GeminiResponse.okText t) :
    Server.generateThankYouMessage gemini name amount message = jsTrim t := by
  unfold Server.generateThankYouMessage
  rw [h]

/-- Witness for C6 with a concrete candidate text carrying surrounding
whitespace. -/
theorem generate_returns_trimmed_candidate_case :
    gText "  Bless you, Ada!  " (Server.buildPrompt "Ada" "25.00" none) =
      GeminiResponse.okText "  Bless you, Ada!  " ∧
    Server.generateThankYouMessage (gText "  Bless you, Ada!  ") "Ada" "25.00" none =
      "Bless you, Ada!" := by
  refine ⟨rfl, ?_⟩
  rw [generate_returns_trimmed_candidate (gText "  Bless you, Ada!  ") "Ada" "25.00" none
    "  Bless you, Ada!  " rfl]
  decide

/-- C7: for a recognized event that validates (custom_id parsed), when the
transport rejects the built message the handler surfaces the delivery
failure: its single response is 500 — even though content generation
succeeded — after the one send attempt. -/
theorem webhook_surfaces_delivery_failure (gemini : String → GeminiResponse)
    (mail : MailMessage → MailOutcome) (emailFrom : String) (event : WebhookEvent)
    (r : Resource) (pu : PurchaseUnit) (rest : List PurchaseUnit) (d : DonorIntent)
    (a : String)
    (ht : event.event_type = "PAYMENT.CAPTURE.COMPLETED")
    (hr : event.resource = some r) (ha : r.amount = some a)
    (hp : r.purchase_units = pu :: rest) (hc : pu.custom_id = CustomId.parsed d)
    (hrej : mail (Server.builtMail gemini emailFrom r.id a d) = MailOutcome.rejected) :
    (Server.handleWebhook gemini mail emailFrom event).responses = [500] ∧
    (Server.handleWebhook gemini mail emailFrom event).mails =
      [Server.builtMail gemini emailFrom r.id a d] := by
  rw [handle_parsed gemini mail emailFrom event r pu rest d a ht hr ha hp hc, hrej]
  exact ⟨rfl, rfl⟩

/-- Witness for C7 at the concrete event evGood with a rejecting
transport. -/
theorem webhook_surfaces_delivery_failure_case :
    mailReject (Server.builtMail gFault exFrom exResource.id "25.00" adaIntent) =
      MailOutcome.rejected ∧
    (Server.handleWebhook gFault mailReject exFrom evGood).responses = [500] ∧
    (Server.handleWebhook gFault mailReject exFrom evGood).mails =
      [Server.builtMail gFault exFrom exResource.id "25.00" adaIntent] := by
  have h := webhook_surfaces_delivery_failure gFault mailReject exFrom evGood exResource
    exPU [] adaIntent "25.00" rfl rfl rfl rfl rfl rfl
  exact ⟨rfl, h.1, h.2⟩

/-- C8: the two copies of generateThankYouMessage embedded from
src/server.js and src/unnamed/part_000 are extensionally equal: for every
key they target the same endpoint URL, for every input they build the same
prompt — hence issue the same external request — and for every behaviour
of the external service they return the same acknowledgement string. -/
theorem generate_copies_agree (gemini : String → GeminiResponse)
    (key name amount : String) (message : Option String) :
    Part000.geminiApiUrl key = Server.geminiApiUrl key ∧
    Part000.buildPrompt name amount message = Server.buildPrompt name amount message ∧
    Part000.generateThankYouMessage gemini name amount message =
      Server.generateThankYouMessage gemini name amount message :=
  ⟨rfl, rfl, rfl⟩

/-- C9: the webhook POST handler — in both copies of the source — sends
exactly one HTTP response per inbound request: the early return in the
catch branch means the 500 is never followed by the trailing 200, and
every other path sends exactly the one trailing 200. -/
theorem webhook_single_response (gemini : String → GeminiResponse)
    (mail : MailMessage → MailOutcome) (emailFrom : String) (event : WebhookEvent) :
    (Server.handleWebhook gemini mail emailFrom event).responses.length = 1 ∧
    (Part000.handleWebhook gemini mail emailFrom event).responses.length = 1 := by
  constructor
  · unfold Server.handleWebhook
    split
    · cases Server.webhookTryBlock gemini mail emailFrom event <;> rfl
    · rfl
  · unfold Part000.handleWebhook
    split
    · cases Part000.webhookTryBlock gemini mail emailFrom event <;> rfl
    · rfl

/-- C10: the optional donor message is tested for truthiness, not
presence: with message equal to the empty string the generator builds
exactly the same prompt — hence issues exactly the same external request —
and returns the same acknowledgement as with message absent, for every
behaviour of the external service. -/
theorem empty_message_same_as_absent (gemini : String → GeminiResponse)
    (name amount : String) :
    Server.buildPrompt name amount (some "") = Server.buildPrompt name amount none ∧
    Server.generateThankYouMessage gemini name amount (some "") =
      Server.generateThankYouMessage gemini name amount none :=
  ⟨rfl, rfl⟩
